import Mathlib

/-!
Verification development for the museum data pipeline's live streaming
ingestion path.  The definitions below are a shallow embedding of the
Python sources `kafka_to_db.py` (functions `transform_kafka_data`,
`move_to_db`, `process_kafka_data`) and `pipeline.py` (function
`tuple_switch_one`).  Pure functions become Lean functions; the raised
Python exceptions become explicit error values; the database and console
are modelled by an explicit effect log (rows inserted, queries issued,
records printed, log lines written by the `logging` module).
-/

set_option autoImplicit false

/-- A JSON scalar value as it appears in a decoded message dictionary.
The messages in scope carry integer and string values only; Python's
dynamic equality between these types (an int never equals a str) is
modelled by `pyEq`. -/
inductive JVal where
  | int (i : Int)
  | str (s : String)
deriving DecidableEq

/-- Python `==` on the modelled values: equal ints or equal strings;
an int and a str are never equal. -/
def pyEq (a b : JVal) : Bool :=
  match a, b with
  | .int i, .int j => i == j
  | .str s, .str t => s == t
  | _, _ => false

/-- Python `x == v` where `x` may be `None` (modelled as `none`):
`None == v` is `False` for the values in scope. -/
def pyEqOpt (o : Option JVal) (v : JVal) : Bool :=
  match o with
  | some x => pyEq x v
  | none => false

/-- A decoded message dictionary (`msg_dict` in `process_kafka_data`).
Only the four keys the source ever reads are modelled; `none` means the
key is absent from the dictionary. -/
structure MsgDict where
  at_ : Option JVal
  site : Option JVal
  val : Option JVal
  type : Option JVal
deriving DecidableEq

/-- The validation failures logged by `process_kafka_data` lines 100-126:
missing `at`/`site`/`val`, invalid exhibition number, value out of range,
invalid type. -/
inductive ValidationError where
  | missingField
  | invalidSite
  | invalidValue
  | invalidType
deriving DecidableEq

/-- Python exceptions that can escape the modelled fragment. -/
inductive PyError where
  | valueError
  | typeError
  | keyError
  | jsonDecodeError
  | unicodeDecodeError
  | databaseError
deriving DecidableEq

/-- Python `len` on a modelled JSON value.  Only ever evaluated on
strings: in the source the length test is short-circuited behind the
membership test in a list of strings, so a non-string never reaches it. -/
def jLen (v : JVal) : Nat :=
  match v with
  | .str s => s.length
  | .int _ => 0

/-- The list `[str(x) for x in range(6)]` from the site check, written
out. -/
def siteVals : List JVal :=
  [.str "0", .str "1", .str "2", .str "3", .str "4", .str "5"]

/-- The list `list(range(-1, 5))` from the value check. -/
def valVals : List JVal := [.int (-1), .int 0, .int 1, .int 2, .int 3, .int 4]

/-- Condition of the missing-field check:
`'at' not in keys or 'site' not in keys or 'val' not in keys`. -/
def missingCond (m : MsgDict) : Bool :=
  m.at_.isNone || m.site.isNone || m.val.isNone

/-- Condition of the site check:
`msg_dict['site'] not in [str(x) for x in range(6)] or len(msg_dict['site']) != 1`. -/
def siteBad (m : MsgDict) : Bool :=
  match m.site with
  | some sv => !(siteVals.any (fun x => pyEq sv x)) || jLen sv != 1
  | none => true

/-- Condition of the value check: `msg_dict['val'] not in list(range(-1, 5))`. -/
def valBad (m : MsgDict) : Bool :=
  match m.val with
  | some v => !(valVals.any (fun x => pyEq v x))
  | none => true

/-- Condition of the type check: `'type' in msg_dict.keys()` and
`msg_dict['type'] not in [0, 1]`.  Note the source applies this check
whenever the `type` key is present, independently of `val`. -/
def typeBad (m : MsgDict) : Bool :=
  match m.type with
  | some t => !(pyEq t (.int 0) || pyEq t (.int 1))
  | none => false

/-- The validation block of `process_kafka_data` (lines 100-126): the four
checks in source order, the first failing one producing the logged error
and a `continue`.  `none` means the message passed all checks. -/
def validate (m : MsgDict) : Option ValidationError :=
  if missingCond m then some .missingField
  else if siteBad m then some .invalidSite
  else if valBad m then some .invalidValue
  else if typeBad m then some .invalidType
  else none

/-- The aware datetime produced by
`datetime.strptime(data['at'], '%Y-%m-%dT%H:%M:%S.%f%z')`:
wall-clock fields plus the parsed UTC offset in minutes. -/
structure PyDateTime where
  year : Nat
  month : Nat
  day : Nat
  hour : Nat
  minute : Nat
  second : Nat
  microsecond : Nat
  tzMinutes : Int
deriving DecidableEq

/-- Value of an ASCII decimal digit, `none` for any other character. -/
def digit? (c : Char) : Option Nat :=
  if c.isDigit then some (c.toNat - 48) else none

/-- Take greedily up to `k` leading digits. -/
def grabDigits : Nat → List Char → List Nat × List Char
  | 0, cs => ([], cs)
  | _ + 1, [] => ([], [])
  | k + 1, c :: rest =>
    match digit? c with
    | some d =>
      let p := grabDigits k rest
      (d :: p.1, p.2)
    | none => ([], c :: rest)

/-- Numeric value of a digit sequence. -/
def digitsVal (ds : List Nat) : Nat := ds.foldl (fun a d => a * 10 + d) 0

/-- Exactly `n` digits, as for the `%Y` directive. -/
def takeFixed (n : Nat) (cs : List Char) : Option (Nat × List Char) :=
  let p := grabDigits n cs
  if p.1.length = n then some (digitsVal p.1, p.2) else none

/-- One or two digits, greedy, as for the `%m %d %H %M %S` directives.
The surrounding format places a non-digit separator after each of these
fields, so backtracking from two digits to one can never rescue a parse;
the greedy reading is equivalent to the source's regular expression. -/
def take1or2 (cs : List Char) : Option (Nat × List Char) :=
  let p := grabDigits 2 cs
  if p.1.length = 0 then none else some (digitsVal p.1, p.2)

/-- One to six digits for `%f`, right-padded with zeros to microseconds. -/
def takeFrac (cs : List Char) : Option (Nat × List Char) :=
  let p := grabDigits 6 cs
  if p.1.length = 0 then none
  else some (digitsVal p.1 * 10 ^ (6 - p.1.length), p.2)

/-- Require the literal character `c`. -/
def expectCh (c : Char) (cs : List Char) : Option (List Char) :=
  match cs with
  | d :: rest => if d = c then some rest else none
  | [] => none

/-- Offset body after a sign for `%z`: two hour digits, optional colon,
two minute digits with minutes below 60, total strictly below 24 hours
(the bound enforced by `datetime.timezone`).  An offset carrying a
seconds component, accepted by the library but never exercised by this
system's data, is outside the model. -/
def parseTzTail (sign : Int) (cs : List Char) : Option (Int × List Char) :=
  match takeFixed 2 cs with
  | none => none
  | some (hh, cs1) =>
    let cs2 := match cs1 with
      | c :: rest => if c = ':' then rest else cs1
      | [] => cs1
    match takeFixed 2 cs2 with
    | none => none
    | some (mm, cs3) =>
      if mm ≤ 59 ∧ hh * 60 + mm < 1440 then
        some (sign * (hh * 60 + mm : Nat), cs3)
      else none

/-- The `%z` directive: `Z` for UTC or a signed `HH[:]MM` offset. -/
def parseTz (cs : List Char) : Option (Int × List Char) :=
  match cs with
  | [] => none
  | c :: rest =>
    if c = 'Z' then some (0, rest)
    else if c = '+' then parseTzTail 1 rest
    else if c = '-' then parseTzTail (-1) rest
    else none

/-- Number of days in a month of the proleptic Gregorian calendar, as
checked by the `datetime` constructor. -/
def daysInMonth (y m : Nat) : Nat :=
  if m = 2 then (if (y % 4 == 0 && y % 100 != 0) || y % 400 == 0 then 29 else 28)
  else if m = 4 ∨ m = 6 ∨ m = 9 ∨ m = 11 then 30
  else 31

/-- The `%Y-%m-%d` prefix of the format followed by the literal `T`
separator (also matched lower case, as the library compiles its patterns
case-insensitively). -/
def parseYmd (cs : List Char) : Option ((Nat × Nat × Nat) × List Char) :=
  match takeFixed 4 cs with
  | none => none
  | some (y, cs1) =>
    match expectCh '-' cs1 with
    | none => none
    | some cs2 =>
      match take1or2 cs2 with
      | none => none
      | some (mo, cs3) =>
        match expectCh '-' cs3 with
        | none => none
        | some cs4 =>
          match take1or2 cs4 with
          | none => none
          | some (d, cs5) =>
            match cs5 with
            | c :: rest => if c = 'T' ∨ c = 't' then some ((y, mo, d), rest) else none
            | [] => none

/-- The `%H:%M:%S.%f` part of the format. -/
def parseHmsF (cs : List Char) : Option ((Nat × Nat × Nat × Nat) × List Char) :=
  match take1or2 cs with
  | none => none
  | some (h, cs1) =>
    match expectCh ':' cs1 with
    | none => none
    | some cs2 =>
      match take1or2 cs2 with
      | none => none
      | some (mi, cs3) =>
        match expectCh ':' cs3 with
        | none => none
        | some cs4 =>
          match take1or2 cs4 with
          | none => none
          | some (sec, cs5) =>
            match expectCh '.' cs5 with
            | none => none
            | some cs6 =>
              match takeFrac cs6 with
              | none => none
              | some (us, cs7) => some ((h, mi, sec, us), cs7)

/-- `datetime.strptime(s, '%Y-%m-%dT%H:%M:%S.%f%z')`: the whole string
must match the format, and the parsed fields must form a valid datetime
(the constructor rejects out-of-range fields with `ValueError`, which is
the same exception a format mismatch raises, so `none` models both). -/
def strptimeIsoTz (s : String) : Option PyDateTime :=
  match parseYmd s.toList with
  | none => none
  | some ((y, mo, d), cs1) =>
    match parseHmsF cs1 with
    | none => none
    | some ((h, mi, sec, us), cs2) =>
      match parseTz cs2 with
      | none => none
      | some (tz, cs3) =>
        if cs3 = [] ∧ 1 ≤ y ∧ 1 ≤ mo ∧ mo ≤ 12 ∧ 1 ≤ d ∧ d ≤ daysInMonth y mo ∧
            h ≤ 23 ∧ mi ≤ 59 ∧ sec ≤ 59 then
          some ⟨y, mo, d, h, mi, sec, us, tz⟩
        else none

/-- Two-digit zero-padded field for `strftime`. -/
def pad2 (n : Nat) : String :=
  if n < 10 then "0" ++ toString n else toString n

/-- `time.strftime('%m/%d/%y %H:%M:%S')`: formats the datetime's own
wall-clock fields; the stored UTC offset is not consulted. -/
def strftimeOut (dt : PyDateTime) : String :=
  pad2 dt.month ++ "/" ++ pad2 dt.day ++ "/" ++ pad2 (dt.year % 100) ++ " " ++
    pad2 dt.hour ++ ":" ++ pad2 dt.minute ++ ":" ++ pad2 dt.second

/-- Python `s.rjust(1, '0')`: pad on the left to width one. -/
def rjust1 (s : String) : String :=
  if s.length = 0 then "0" else s

/-- The dictionary built by `transform_kafka_data`. -/
structure TransformedData where
  at_ : String
  site : String
  val : JVal
  type : Option JVal
deriving DecidableEq

/-- `transform_kafka_data` (kafka_to_db.py lines 18-35): parse and
reformat the timestamp, build the `EXH_0`-prefixed site, carry `val`
through, and copy `type` (Python `None`, modelled `none`, when absent).
A missing key raises `KeyError`, `strptime` on a non-string raises
`TypeError`, a string not matching the format raises `ValueError`,
`rjust` on a non-string raises `TypeError`; all escape the function. -/
def transform_kafka_data (m : MsgDict) : Except PyError TransformedData :=
  match m.at_ with
  | none => .error .keyError
  | some (.int _) => .error .typeError
  | some (.str s) =>
    match strptimeIsoTz s with
    | none => .error .valueError
    | some dt =>
      match m.site with
      | none => .error .keyError
      | some (.int _) => .error .typeError
      | some (.str site) =>
        match m.val with
        | none => .error .keyError
        | some v =>
          .ok ⟨strftimeOut dt, "EXH_0" ++ rjust1 site, v, m.type⟩

/-- `tuple_switch_one` (pipeline.py lines 36-44): scan the list in order
and return the first component of the first tuple whose second component
equals `val` under the supplied (Python, possibly heterogeneous)
equality; `none` models the `ValueError` raised when no tuple matches.
The list argument is read only, never modified. -/
def tuple_switch_one {α β : Type} (eqv : β → α → Bool) (val : β) :
    List (α × α) → Option α
  | [] => none
  | tpl :: rest =>
    if eqv val tpl.2 then some tpl.1 else tuple_switch_one eqv val rest

/-- A row inserted by `move_to_db`, identifying the destination table and
the parameters bound into the insert statement. -/
inductive InsertRow where
  | vote (exhibitionId voteTime : String) (ratingId : Int)
  | assistance (exhibitionId assistanceTime : String)
  | emergency (exhibitionId emergencyTime : String)
deriving DecidableEq

/-- Database effects of one `move_to_db` call: how many times the Rating
reference table was queried with `SELECT RatingID, Rating from Rating;`
and which rows were inserted (each successful insert is followed by a
`connection.commit()` in the source). -/
structure DbEffects where
  ratingQueries : Nat
  inserts : List InsertRow
deriving DecidableEq

/-- Python comparison `data['val'] == tpl[1]` between the message value
and a RatingValue integer fetched from the Rating table. -/
def pyEqValRating (v : JVal) (r : Int) : Bool := pyEq v (.int r)

/-- `move_to_db` (kafka_to_db.py lines 40-77).  The database environment
is the current contents of the Rating table (rows `(RatingID, Rating)`
returned by the SELECT) plus `dbOk`, which tells whether a given insert
statement executes successfully; `dbOk i = false` models the driver
raising a database error on `cursor.execute`.  The returned error, when
present, is the exception escaping the call: a `ValueError` from
`tuple_switch_one` on a lookup miss, or a database error from a failed
insert.  A record with `val == -1` whose `type` matches neither branch
falls through all three conditionals: no query, no insert, no log, no
error. -/
def move_to_db (data : TransformedData) (ratingTable : List (Int × Int))
    (dbOk : InsertRow → Bool) : DbEffects × Option PyError :=
  if !(pyEq data.val (.int (-1))) then
    match tuple_switch_one pyEqValRating data.val ratingTable with
    | none => (⟨1, []⟩, some .valueError)
    | some rid =>
      let row := InsertRow.vote data.site data.at_ rid
      if dbOk row then (⟨1, [row]⟩, none) else (⟨1, []⟩, some .databaseError)
  else if pyEq data.val (.int (-1)) && pyEqOpt data.type (.int 0) then
    let row := InsertRow.assistance data.site data.at_
    if dbOk row then (⟨0, [row]⟩, none) else (⟨0, []⟩, some .databaseError)
  else if pyEq data.val (.int (-1)) && pyEqOpt data.type (.int 1) then
    let row := InsertRow.emergency data.site data.at_
    if dbOk row then (⟨0, [row]⟩, none) else (⟨0, []⟩, some .databaseError)
  else (⟨0, []⟩, none)

/-- A line written through the `logging` module by the validation block:
the rejected message together with the reported reason (the source emits
the pair as two consecutive `logging.info` calls). -/
inductive LogLine where
  | rejected (m : MsgDict) (e : ValidationError)
deriving DecidableEq

/-- Observable effects of the consumer loop: log-file lines, rows
inserted, Rating-table queries issued, and records printed to the
console by `print(transformed_data)`. -/
structure Effects where
  logs : List LogLine
  inserts : List InsertRow
  ratingQueries : Nat
  echoed : List TransformedData
deriving DecidableEq

/-- The empty effect log. -/
def noEffects : Effects := ⟨[], [], 0, []⟩

/-- Concatenation of effect logs of successive loop iterations. -/
def Effects.append (a b : Effects) : Effects :=
  ⟨a.logs ++ b.logs, a.inserts ++ b.inserts,
    a.ratingQueries + b.ratingQueries, a.echoed ++ b.echoed⟩

/-- The payload of one polled Kafka message, as seen after
`msg.value().decode()` and `json.loads`: raw bytes that fail UTF-8
decoding, text that is not valid JSON, or a decoded dictionary. -/
inductive Payload where
  | undecodable
  | notJson (s : String)
  | jsonDict (m : MsgDict)
deriving DecidableEq

/-- One result of `consumer.poll(1.0)`: either no message within the
wait, or a message with the given payload. -/
inductive PollItem where
  | empty
  | msg (p : Payload)
deriving DecidableEq

/-- One iteration of the `while True` body of `process_kafka_data` on a
received message: the effects produced, and the Python exception
escaping the iteration, if any.  The inner `try` only catches
`KafkaException` and `KafkaError`, so a UTF-8 decode failure, a JSON
parse failure, a `strptime` failure, a lookup miss, and a database write
failure all propagate out of the `while` loop uncaught.  A validation
failure logs the message with its reason and `continue`s. -/
def processOne (p : Payload) (ratingTable : List (Int × Int))
    (dbOk : InsertRow → Bool) : Effects × Option PyError :=
  match p with
  | .undecodable => (noEffects, some .unicodeDecodeError)
  | .notJson _ => (noEffects, some .jsonDecodeError)
  | .jsonDict m =>
    match validate m with
    | some e => (⟨[.rejected m e], [], 0, []⟩, none)
    | none =>
      match transform_kafka_data m with
      | .error e => (noEffects, some e)
      | .ok td =>
        let r := move_to_db td ratingTable dbOk
        match r.2 with
        | some e => (⟨[], r.1.inserts, r.1.ratingQueries, []⟩, some e)
        | none => (⟨[], r.1.inserts, r.1.ratingQueries, [td]⟩, none)

/-- The result of running `process_kafka_data` over a finite prefix of
poll results: accumulated effects, and `some e` when an uncaught
exception `e` terminated the loop before the prefix was exhausted
(`none` means the loop is still polling after the prefix). -/
structure RunResult where
  effects : Effects
  error : Option PyError
deriving DecidableEq

/-- The consumer loop of `process_kafka_data` (kafka_to_db.py lines
90-148) run over a finite prefix of poll results.  An empty poll
`continue`s; a message is processed by one iteration; an uncaught
exception stops the loop (the `finally` block then closes the consumer
and the connection, which the model leaves implicit), and any later poll
results are never seen. -/
def process_kafka_data (polls : List PollItem) (ratingTable : List (Int × Int))
    (dbOk : InsertRow → Bool) : RunResult :=
  match polls with
  | [] => ⟨noEffects, none⟩
  | .empty :: rest => process_kafka_data rest ratingTable dbOk
  | .msg p :: rest =>
    let r := processOne p ratingTable dbOk
    match r.2 with
    | some e => ⟨r.1, some e⟩
    | none =>
      let tailRun := process_kafka_data rest ratingTable dbOk
      ⟨r.1.append tailRun.effects, tailRun.error⟩

/-- A database environment in which every insert statement succeeds. -/
def dbAlwaysOk : InsertRow → Bool := fun _ => true

/-- Days from 1970-01-01 to year `y`, month `m`, day `d` of the
proleptic Gregorian calendar, for `y ≥ 1` (Hinnant's civil-days
algorithm).  Used only to state what UTC normalization of an aware
datetime would produce. -/
def daysFromCivil (y m d : Nat) : Int :=
  let y2 := if m ≤ 2 then y - 1 else y
  let era := y2 / 400
  let yoe := y2 % 400
  let mp := (m + 9) % 12
  let doy := (153 * mp + 2) / 5 + d - 1
  let doe := yoe * 365 + yoe / 4 - yoe / 100 + doy
  (era * 146097 + doe : Int) - 719468

/-- Inverse of `daysFromCivil` on the shifted day count
`z = days + 719468 ≥ 0`: the civil `(year, month, day)`. -/
def civilFromDays (z : Nat) : Nat × Nat × Nat :=
  let era := z / 146097
  let doe := z % 146097
  let yoe := (doe - doe / 1460 + doe / 36524 - doe / 146096) / 365
  let y := yoe + era * 400
  let doy := doe - (365 * yoe + yoe / 4 - yoe / 100)
  let mp := (5 * doy + 2) / 153
  let d := doy - (153 * mp + 2) / 5 + 1
  let m := if mp < 10 then mp + 3 else mp - 9
  (if m ≤ 2 then y + 1 else y, m, d)

/-- The instant denoted by an aware datetime, re-expressed in UTC
wall-clock fields: what `dt.astimezone(timezone.utc)` would yield.  This
is the specification-side meaning of "UTC-normalize"; the source never
computes it. -/
def utcNormalize (dt : PyDateTime) : PyDateTime :=
  let total : Int :=
    daysFromCivil dt.year dt.month dt.day * 1440 + dt.hour * 60 + dt.minute - dt.tzMinutes
  let days : Int := Int.ediv total 1440
  let rem : Nat := (Int.emod total 1440).toNat
  let c := civilFromDays (days + 719468).toNat
  ⟨c.1, c.2.1, c.2.2, rem / 60, rem % 60, dt.second, dt.microsecond, 0⟩

/-- The presence rule, first in the specified order: `at`, `site`, `val`
must all exist, else MissingField. -/
def presenceRule (m : MsgDict) : Option ValidationError :=
  if missingCond m then some .missingField else none

/-- The site rule, second in the specified order. -/
def siteRule (m : MsgDict) : Option ValidationError :=
  if siteBad m then some .invalidSite else none

/-- The value rule, third in the specified order. -/
def valRule (m : MsgDict) : Option ValidationError :=
  if valBad m then some .invalidValue else none

/-- The type rule, fourth in the specified order. -/
def typeRule (m : MsgDict) : Option ValidationError :=
  if typeBad m then some .invalidType else none

/-- Modelled from the spec: "Rules, applied in order (first failing rule
determines the reported error)" — the error of the first rule in the
list that fails on the message. -/
def firstFailing : List (MsgDict → Option ValidationError) → MsgDict → Option ValidationError
  | [], _ => none
  | r :: rs, m =>
    match r m with
    | some e => some e
    | none => firstFailing rs m

/-- The four validation rules in the order the source applies them. -/
def validationRules : List (MsgDict → Option ValidationError) :=
  [presenceRule, siteRule, valRule, typeRule]

/-- The end-to-end scenario input
`{"at":"2024-01-01T10:00:00.000000+00:00","site":"2","val":4}`. -/
def msgE2E : MsgDict :=
  ⟨some (.str "2024-01-01T10:00:00.000000+00:00"), some (.str "2"), some (.int 4), none⟩

/-- The normalized record of the end-to-end scenario. -/
def tdE2E : TransformedData := ⟨"01/01/24 10:00:00", "EXH_02", .int 4, none⟩

/-- A valid request message with `val == -1` and no `type` key. -/
def msgNoKind : MsgDict :=
  ⟨some (.str "2024-01-01T10:00:00.000000+00:00"), some (.str "3"), some (.int (-1)), none⟩

/-- The transformed form of `msgNoKind` (its `type` becomes Python
`None`). -/
def tdNoKind : TransformedData := ⟨"01/01/24 10:00:00", "EXH_03", .int (-1), none⟩

/-- A message whose `at` value is a string that does not match the
timestamp format, with all validated fields in range. -/
def msgBadAt : MsgDict :=
  ⟨some (.str "not-a-timestamp"), some (.str "2"), some (.int 3), none⟩

/-- A vote message (`val = 2`) that additionally carries `type = 5`. -/
def msgBadType : MsgDict :=
  ⟨some (.str "2024-01-01T10:00:00.000000+00:00"), some (.str "2"), some (.int 2), some (.int 5)⟩

/-- A valid vote message with `val = 2`. -/
def msgVote2 : MsgDict :=
  ⟨some (.str "2024-01-01T10:00:00.000000+00:00"), some (.str "1"), some (.int 2), none⟩

/-- A valid message whose timestamp carries the non-zero offset
`+05:00`. -/
def msgOffset : MsgDict :=
  ⟨some (.str "2024-01-01T10:00:00.000000+05:00"), some (.str "2"), some (.int 3), none⟩

/-- A message missing its `at` key. -/
def msgMissingAt : MsgDict := ⟨none, some (.str "2"), some (.int 3), none⟩

/-- Helper: Python equality of a value with a string constant forces the
value to be that string. -/
theorem pyEq_str_elim (v : JVal) (t : String) (h : pyEq v (.str t) = true) :
    v = .str t := by
  cases v with
  | int i => simp [pyEq] at h
  | str s =>
    simp only [pyEq, beq_iff_eq] at h
    rw [h]

/-- Helper: Python equality of a value with an int constant forces the
value to be that int. -/
theorem pyEq_int_elim (v : JVal) (n : Int) (h : pyEq v (.int n) = true) :
    v = .int n := by
  cases v with
  | int i =>
    simp only [pyEq, beq_iff_eq] at h
    rw [h]
  | str s => simp [pyEq] at h

/-- Helper: a message that passes validation fails none of the four
checks. -/
theorem validate_none_iff (m : MsgDict) :
    validate m = none ↔
      missingCond m = false ∧ siteBad m = false ∧ valBad m = false ∧ typeBad m = false := by
  unfold validate
  by_cases h1 : missingCond m <;> by_cases h2 : siteBad m <;>
    by_cases h3 : valBad m <;> by_cases h4 : typeBad m <;>
      simp [h1, h2, h3, h4]

/-- Helper: a site that passes the site check is a string of length
one. -/
theorem siteBad_false_shape (m : MsgDict) (h : siteBad m = false) :
    ∃ s : String, m.site = some (.str s) ∧ s.length = 1 := by
  cases hm : m.site with
  | none => rw [siteBad, hm] at h; cases h
  | some sv =>
    rw [siteBad, hm] at h
    obtain ⟨hmem0, hlen0⟩ := Bool.or_eq_false_iff.mp h
    have hmem : siteVals.any (fun x => pyEq sv x) = true := by
      cases hA : siteVals.any (fun x => pyEq sv x) with
      | true => rfl
      | false => rw [hA] at hmem0; simp at hmem0
    have hlen : jLen sv = 1 := by
      have := bne_eq_false_iff_eq.mp hlen0
      exact this
    rcases List.any_eq_true.mp hmem with ⟨x, hx, hpe⟩
    have hxs : ∃ t : String, x = .str t := by
      simp only [siteVals, List.mem_cons, List.not_mem_nil, or_false] at hx
      rcases hx with h | h | h | h | h | h <;> exact ⟨_, h⟩
    obtain ⟨t, rfl⟩ := hxs
    have hsv := pyEq_str_elim sv t hpe
    subst hsv
    exact ⟨t, rfl, hlen⟩

/-- C10: `tuple_switch_one` returns the first component of the first
tuple (in list order) whose second component equals the value, so with
duplicate second components the earliest tuple wins; it returns `none`
(the source raises `ValueError`) exactly when no tuple's second
component equals the value.  The list is consumed purely and never
modified. -/
theorem c10_tuple_switch_one_first_match {α β : Type} (eqv : β → α → Bool)
    (val : β) (l : List (α × α)) :
    tuple_switch_one eqv val l = (l.find? (fun t => eqv val t.2)).map Prod.fst ∧
    (tuple_switch_one eqv val l = none ↔ ∀ t ∈ l, eqv val t.2 = false) := by
  constructor
  · induction l with
    | nil => rfl
    | cons a rest ih =>
      by_cases h : eqv val a.2 = true
      · simp [tuple_switch_one, List.find?, h]
      · rw [Bool.not_eq_true] at h
        simp [tuple_switch_one, List.find?, h, ih]
  · induction l with
    | nil => simp [tuple_switch_one]
    | cons a rest ih =>
      by_cases h : eqv val a.2 = true
      · simp [tuple_switch_one, h]
      · rw [Bool.not_eq_true] at h
        simp [tuple_switch_one, h, ih]

/-- C10 witness: a concrete run in which the second and third tuples
both match and the second (earlier) one wins. -/
theorem c10_tuple_switch_one_witness :
    tuple_switch_one (fun (x y : Nat) => x == y) 3 [(5, 2), (7, 3), (9, 3)] =
      (([(5, 2), (7, 3), (9, 3)].find? (fun t => 3 == t.2)).map Prod.fst) ∧
    (tuple_switch_one (fun (x y : Nat) => x == y) 3 [(5, 2), (7, 3), (9, 3)] = none ↔
      ∀ t ∈ [(5, 2), (7, 3), (9, 3)], (3 == t.2) = false) :=
  c10_tuple_switch_one_first_match (fun x y => x == y) 3 [(5, 2), (7, 3), (9, 3)]

/-- C7: validation applies its rules in the fixed order presence, site,
value, type, the first failing rule determining the single reported
error; a message missing any of `at`/`site`/`val` is reported as
MissingField, only logged, and its iteration performs no transform, no
database write, no echo, and continues the loop. -/
theorem c7_validation_order :
    (∀ m : MsgDict, validate m = firstFailing validationRules m) ∧
    (∀ (m : MsgDict) (t : List (Int × Int)) (ok : InsertRow → Bool),
      missingCond m = true →
        validate m = some .missingField ∧
        processOne (.jsonDict m) t ok = (⟨[.rejected m .missingField], [], 0, []⟩, none)) := by
  constructor
  · intro m
    simp only [validate, validationRules, firstFailing, presenceRule, siteRule, valRule,
      typeRule]
    by_cases h1 : missingCond m <;> by_cases h2 : siteBad m <;>
      by_cases h3 : valBad m <;> by_cases h4 : typeBad m <;>
        simp [h1, h2, h3, h4]
  · intro m t ok h
    have hv : validate m = some .missingField := by simp [validate, h]
    exact ⟨hv, by simp [processOne, hv]⟩

/-- C7 witness: the checks at a concrete message missing its `at` key. -/
theorem c7_validation_order_witness :
    missingCond msgMissingAt = true ∧
    (validate msgMissingAt = some .missingField ∧
      processOne (.jsonDict msgMissingAt) [(12, 4)] dbAlwaysOk =
        (⟨[.rejected msgMissingAt .missingField], [], 0, []⟩, none)) :=
  ⟨by decide, c7_validation_order.2 msgMissingAt [(12, 4)] dbAlwaysOk (by decide)⟩

/-- C1 (amended): `route_and_write` follows the `(value, kind)` routing
table on the database side: a record with `val != -1` queries the Rating
table, resolves the RatingID via the lookup, and, when the lookup and
the write succeed, inserts exactly one row into Vote and none elsewhere;
`val == -1` with `type == 0` inserts exactly one row into Assistance
only; `val == -1` with `type == 1` inserts exactly one row into
Emergency only; and `val == -1` with neither kind is dropped silently —
no insert into any table and no log line — while the loop still echoes
the record to the console. -/
theorem c1_routing (td : TransformedData) (t : List (Int × Int))
    (ok : InsertRow → Bool) :
    (∀ rid : Int, pyEq td.val (.int (-1)) = false →
      tuple_switch_one pyEqValRating td.val t = some rid →
      ok (.vote td.site td.at_ rid) = true →
      move_to_db td t ok = (⟨1, [.vote td.site td.at_ rid]⟩, none)) ∧
    (pyEq td.val (.int (-1)) = true → pyEqOpt td.type (.int 0) = true →
      ok (.assistance td.site td.at_) = true →
      move_to_db td t ok = (⟨0, [.assistance td.site td.at_]⟩, none)) ∧
    (pyEq td.val (.int (-1)) = true → pyEqOpt td.type (.int 1) = true →
      ok (.emergency td.site td.at_) = true →
      move_to_db td t ok = (⟨0, [.emergency td.site td.at_]⟩, none)) ∧
    (pyEq td.val (.int (-1)) = true → pyEqOpt td.type (.int 0) = false →
      pyEqOpt td.type (.int 1) = false →
      move_to_db td t ok = (⟨0, []⟩, none)) ∧
    (∀ (m : MsgDict) (td2 : TransformedData),
      validate m = none → transform_kafka_data m = .ok td2 →
      pyEq td2.val (.int (-1)) = true →
      pyEqOpt td2.type (.int 0) = false → pyEqOpt td2.type (.int 1) = false →
      processOne (.jsonDict m) t ok = (⟨[], [], 0, [td2]⟩, none)) := by
  refine ⟨?_, ?_, ?_, ?_, ?_⟩
  · intro rid hval hlook hok
    simp [move_to_db, hval, hlook, hok]
  · intro hval htype hok
    simp [move_to_db, hval, htype, hok]
  · intro hval htype hok
    have htype0 : pyEqOpt td.type (.int 0) = false := by
      cases ht : td.type with
      | none => rfl
      | some v =>
        rw [ht] at htype
        have := pyEq_int_elim v 1 htype
        subst this
        rfl
    simp [move_to_db, hval, htype, htype0, hok]
  · intro hval htype0 htype1
    simp [move_to_db, hval, htype0, htype1]
  · intro m td2 hvalid htrans hval htype0 htype1
    have hmove : move_to_db td2 t ok = (⟨0, []⟩, none) := by
      simp [move_to_db, hval, htype0, htype1]
    simp [processOne, hvalid, htrans, hmove]

/-- C1 witness: at a concrete vote record and a concrete kindless
request, with a Rating table mapping value 4 to RatingID 12. -/
theorem c1_routing_witness :
    move_to_db tdE2E [(7, 2), (12, 4)] dbAlwaysOk =
      (⟨1, [.vote tdE2E.site tdE2E.at_ 12]⟩, none) ∧
    move_to_db tdNoKind [(7, 2), (12, 4)] dbAlwaysOk = (⟨0, []⟩, none) :=
  ⟨(c1_routing tdE2E [(7, 2), (12, 4)] dbAlwaysOk).1 12 (by decide) (by decide) (by decide),
   (c1_routing tdNoKind [(7, 2), (12, 4)] dbAlwaysOk).2.2.2.1 (by decide) (by decide) (by decide)⟩

/-- C1 counterexample: for the valid request `msgNoKind` (`val == -1`,
no `type` key) the iteration writes no log line at all — the record is
only echoed by the console `print` — so "the record is logged" fails on
the code, which silently drops the record. -/
theorem c1_nokind_counterexample :
    processOne (.jsonDict msgNoKind) [(12, 4)] dbAlwaysOk =
      (⟨[], [], 0, [tdNoKind]⟩, none) ∧
    (processOne (.jsonDict msgNoKind) [(12, 4)] dbAlwaysOk).1.logs = [] ∧
    (processOne (.jsonDict msgNoKind) [(12, 4)] dbAlwaysOk).1.inserts = [] := by
  refine ⟨by decide, by decide, by decide⟩

/-- C2 (amended): a rating-lookup miss raises an uncaught `ValueError`
and a failed insert raises an uncaught database error; an iteration
ending in an uncaught exception terminates the consumer loop with that
exception, so no later poll result is ever processed.  Neither error is
logged before the loop dies. -/
theorem c2_lookup_write_fatal :
    (∀ (p : Payload) (t : List (Int × Int)) (ok : InsertRow → Bool)
        (rest : List PollItem) (eff : Effects) (e : PyError),
      processOne p t ok = (eff, some e) →
      process_kafka_data (.msg p :: rest) t ok = ⟨eff, some e⟩) ∧
    (∀ (td : TransformedData) (t : List (Int × Int)) (ok : InsertRow → Bool),
      pyEq td.val (.int (-1)) = false →
      tuple_switch_one pyEqValRating td.val t = none →
      move_to_db td t ok = (⟨1, []⟩, some .valueError)) ∧
    (∀ (td : TransformedData) (t : List (Int × Int)) (ok : InsertRow → Bool)
        (rid : Int),
      pyEq td.val (.int (-1)) = false →
      tuple_switch_one pyEqValRating td.val t = some rid →
      ok (.vote td.site td.at_ rid) = false →
      move_to_db td t ok = (⟨1, []⟩, some .databaseError)) := by
  refine ⟨?_, ?_, ?_⟩
  · intro p t ok rest eff e h
    simp [process_kafka_data, h]
  · intro td t ok hval hlook
    simp [move_to_db, hval, hlook]
  · intro td t ok rid hval hlook hok
    simp [move_to_db, hval, hlook, hok]

/-- C2 witness: a lookup miss terminating a two-message run, and a
rejected insert at the concrete end-to-end record. -/
theorem c2_lookup_write_fatal_witness :
    process_kafka_data [.msg (.jsonDict msgVote2), .msg (.jsonDict msgE2E)] [(1, 0)]
      dbAlwaysOk = ⟨⟨[], [], 1, []⟩, some .valueError⟩ ∧
    move_to_db tdE2E [(12, 4)] (fun _ => false) = (⟨1, []⟩, some .databaseError) := by
  constructor
  · have hone : processOne (.jsonDict msgVote2) [(1, 0)] dbAlwaysOk =
        (⟨⟨[], [], 1, []⟩, some PyError.valueError⟩ : Effects × Option PyError) := by decide
    exact c2_lookup_write_fatal.1 (.jsonDict msgVote2) [(1, 0)] dbAlwaysOk
      [.msg (.jsonDict msgE2E)] ⟨[], [], 1, []⟩ .valueError hone
  · exact c2_lookup_write_fatal.2.2 tdE2E [(12, 4)] (fun _ => false) 12
      (by decide) (by decide) (by decide)

/-- C2 counterexample: with a Rating table lacking value 2, the vote
message `msgVote2` raises `ValueError`; the loop terminates (the claim
says it never does), nothing is logged, and the following valid message
is never processed.  With a failing database, the single valid message
terminates the loop with a database error. -/
theorem c2_counterexample :
    process_kafka_data [.msg (.jsonDict msgVote2), .msg (.jsonDict msgE2E)] [(1, 0)]
      dbAlwaysOk = ⟨⟨[], [], 1, []⟩, some .valueError⟩ ∧
    process_kafka_data [.msg (.jsonDict msgE2E)] [(12, 4)] (fun _ => false) =
      ⟨⟨[], [], 1, []⟩, some .databaseError⟩ := by
  refine ⟨by decide, by decide⟩

/-- C3: the code contradicts the claim — a payload that is not valid
JSON raises `json.JSONDecodeError`, which the inner `try` (catching only
`KafkaException` and `KafkaError`) does not catch: nothing is logged,
the loop terminates, and a subsequent valid message is never processed.
The same valid message alone is processed normally, showing the crash is
caused by the malformed payload. -/
theorem c3_bad_json_crashes_loop :
    process_kafka_data [.msg (.notJson "not json"), .msg (.jsonDict msgE2E)] [(12, 4)]
      dbAlwaysOk = ⟨noEffects, some .jsonDecodeError⟩ ∧
    process_kafka_data [.msg (.jsonDict msgE2E)] [(12, 4)] dbAlwaysOk =
      ⟨⟨[], [.vote "EXH_02" "01/01/24 10:00:00" 12], 1, [tdE2E]⟩, none⟩ := by
  refine ⟨by decide, by decide⟩

/-- C4 counterexample: `msgBadAt` passes every validation check (its
`at` value is a string, which validation never inspects), yet the
transformer's `strptime` raises `ValueError`, so validation is not a
sufficient precondition for `transform` to succeed. -/
theorem c4_counterexample :
    validate msgBadAt = none ∧
    transform_kafka_data msgBadAt = .error .valueError := by
  refine ⟨by decide, by rfl⟩

/-- C4 (amended): for every message that passes validation and whose
`at` value is additionally a string accepted by the timestamp format,
`transform_kafka_data` succeeds; being a function of the message alone
it is deterministic.  Validation alone does not constrain `at`, so the
extra hypothesis cannot be dropped. -/
theorem c4_transform_total_when_at_parses (m : MsgDict) (s : String)
    (dt : PyDateTime) (hval : validate m = none) (hat : m.at_ = some (.str s))
    (hdt : strptimeIsoTz s = some dt) :
    ∃ td : TransformedData, transform_kafka_data m = .ok td := by
  obtain ⟨hmiss, hsitebad, _, _⟩ := (validate_none_iff m).mp hval
  obtain ⟨s2, hsite, _⟩ := siteBad_false_shape m hsitebad
  have hvalsome : ∃ v, m.val = some v := by
    cases hv : m.val with
    | none => rw [missingCond, hv] at hmiss; simp at hmiss
    | some v => exact ⟨v, rfl⟩
  obtain ⟨v, hv⟩ := hvalsome
  refine ⟨⟨strftimeOut dt, "EXH_0" ++ rjust1 s2, v, m.type⟩, ?_⟩
  simp [transform_kafka_data, hat, hdt, hsite, hv]

/-- C4 witness: the end-to-end message satisfies the hypotheses and
transforms successfully. -/
theorem c4_transform_total_witness :
    validate msgE2E = none ∧
    strptimeIsoTz "2024-01-01T10:00:00.000000+00:00" =
      some ⟨2024, 1, 1, 10, 0, 0, 0, 0⟩ ∧
    ∃ td : TransformedData, transform_kafka_data msgE2E = .ok td :=
  ⟨by decide, by decide,
    c4_transform_total_when_at_parses msgE2E "2024-01-01T10:00:00.000000+00:00"
      ⟨2024, 1, 1, 10, 0, 0, 0, 0⟩ (by decide) (by decide) (by decide)⟩

/-- C5 counterexample: for an input timestamp with offset `+05:00` the
code emits the original local wall-clock text `01/01/24 10:00:00`, while
the UTC-converted instant reads `01/01/24 05:00:00`; the two differ, so
the emitted text is not the UTC-normalized time the claim requires. -/
theorem c5_counterexample :
    transform_kafka_data msgOffset =
      .ok ⟨"01/01/24 10:00:00", "EXH_02", .int 3, none⟩ ∧
    (strptimeIsoTz "2024-01-01T10:00:00.000000+05:00").map
      (fun dt => strftimeOut (utcNormalize dt)) = some "01/01/24 05:00:00" ∧
    ("01/01/24 10:00:00" : String) ≠ "01/01/24 05:00:00" := by
  refine ⟨by rfl, by rfl, by decide⟩

/-- C5 (amended): `transform` parses `at` as ISO-8601 with an offset and
reformats the parsed wall-clock fields directly as `MM/DD/YY HH:MM:SS`,
discarding the offset without converting to UTC: the emitted text equals
the formatter applied to the parsed fields, and that formatter is
insensitive to the stored offset. -/
theorem c5_format_is_local_wallclock (m : MsgDict) (s : String)
    (dt : PyDateTime) (td : TransformedData) (hat : m.at_ = some (.str s))
    (hdt : strptimeIsoTz s = some dt)
    (htr : transform_kafka_data m = .ok td) :
    td.at_ = strftimeOut dt ∧
    ∀ z : Int,
      strftimeOut ⟨dt.year, dt.month, dt.day, dt.hour, dt.minute, dt.second,
        dt.microsecond, z⟩ = strftimeOut dt := by
  constructor
  · simp only [transform_kafka_data, hat, hdt] at htr
    cases hsite : m.site with
    | none => rw [hsite] at htr; simp at htr
    | some sv =>
      rw [hsite] at htr
      cases sv with
      | int i => simp at htr
      | str s2 =>
        cases hv : m.val with
        | none => rw [hv] at htr; simp at htr
        | some v =>
          rw [hv] at htr
          simp only [Except.ok.injEq] at htr
          rw [← htr]
  · intro z
    rfl

/-- C5 witness: the amended statement at the concrete `+05:00` input,
with the offset-insensitivity conjunct specialized to offset zero. -/
theorem c5_format_is_local_wallclock_witness :
    (⟨"01/01/24 10:00:00", "EXH_02", .int 3, none⟩ : TransformedData).at_ =
      strftimeOut ⟨2024, 1, 1, 10, 0, 0, 0, 300⟩ ∧
    strftimeOut ⟨2024, 1, 1, 10, 0, 0, 0, 0⟩ =
      strftimeOut ⟨2024, 1, 1, 10, 0, 0, 0, 300⟩ := by
  have h := c5_format_is_local_wallclock msgOffset
    "2024-01-01T10:00:00.000000+05:00" ⟨2024, 1, 1, 10, 0, 0, 0, 300⟩
    ⟨"01/01/24 10:00:00", "EXH_02", .int 3, none⟩
    (by decide) (by decide) (by rfl)
  exact ⟨h.1, h.2 0⟩

/-- C6 counterexample: the vote message `msgBadType` (`val = 2`, so
`val != -1`) with `type = 5` is rejected as InvalidType, although the
claim says a message with `val` in `0..4` and any `type` passes
validation: the source checks `type` whenever the key is present,
regardless of `val`. -/
theorem c6_counterexample :
    validate msgBadType = some .invalidType ∧ validate msgBadType ≠ none := by
  refine ⟨by decide, by decide⟩

/-- C6 (amended): `validate` reports InvalidType exactly when the three
earlier checks pass, the `type` key is present, and its value is neither
`0` nor `1` — independently of whether `val == -1`. -/
theorem c6_invalidType_iff (m : MsgDict) :
    validate m = some .invalidType ↔
      missingCond m = false ∧ siteBad m = false ∧ valBad m = false ∧
        ∃ t, m.type = some t ∧ pyEq t (.int 0) = false ∧ pyEq t (.int 1) = false := by
  have htb : typeBad m = true ↔
      ∃ t, m.type = some t ∧ pyEq t (.int 0) = false ∧ pyEq t (.int 1) = false := by
    cases hm : m.type with
    | none => simp [typeBad, hm]
    | some t => simp [typeBad, hm]
  rw [validate]
  by_cases h1 : missingCond m <;> by_cases h2 : siteBad m <;>
    by_cases h3 : valBad m <;> by_cases h4 : typeBad m <;>
      simp [h1, h2, h3, h4, ← htb]

/-- C6 witness: the amended characterization applied at `msgBadType`. -/
theorem c6_invalidType_iff_witness :
    validate msgBadType = some .invalidType :=
  (c6_invalidType_iff msgBadType).mpr
    ⟨by decide, by decide, by decide, ⟨.int 5, rfl, by decide, by decide⟩⟩

/-- C8 counterexample: a run processing two vote messages issues two
queries against the Rating table, so the table is not read at most once
per run and a per-message query is issued. -/
theorem c8_counterexample :
    (process_kafka_data [.msg (.jsonDict msgE2E), .msg (.jsonDict msgE2E)]
      [(12, 4)] dbAlwaysOk).effects.ratingQueries = 2 := by
  decide

/-- C8 (amended): there is no cache — `move_to_db` issues exactly one
`SELECT` against the Rating table for every record with `val != -1`
(even when the lookup or the insert subsequently fails) and none for a
request record. -/
theorem c8_rating_query_per_vote (td : TransformedData) (t : List (Int × Int))
    (ok : InsertRow → Bool) :
    (move_to_db td t ok).1.ratingQueries =
      if pyEq td.val (.int (-1)) then 0 else 1 := by
  unfold move_to_db
  cases h : pyEq td.val (.int (-1)) with
  | false =>
    simp only [h, Bool.not_false, if_true, if_false]
    cases htso : tuple_switch_one pyEqValRating td.val t with
    | none => rfl
    | some rid => by_cases hok : ok (.vote td.site td.at_ rid) <;> simp [hok]
  | true =>
    simp only [h, Bool.not_true, if_false, if_true, Bool.true_and]
    by_cases h0 : pyEqOpt td.type (.int 0) <;> by_cases h1 : pyEqOpt td.type (.int 1) <;>
      simp [h0, h1] <;> split_ifs <;> rfl

/-- Helper: the site check passed and the site is the string `s`, so `s`
has length one. -/
theorem siteBad_false_len (m : MsgDict) (s : String) (h : siteBad m = false)
    (hs : m.site = some (.str s)) : s.length = 1 := by
  obtain ⟨s2, hs2, hlen⟩ := siteBad_false_shape m h
  rw [hs] at hs2
  cases hs2
  exact hlen

/-- C9: the end-to-end scenario.  The input message with
`at = 2024-01-01T10:00:00.000000+00:00`, `site = "2"`, `val = 4` passes
validation, transforms to `exhibition_id = "EXH_02"` and
`timestamp = "01/01/24 10:00:00"`, and `move_to_db` (for any Rating
table mapping value 4 to some RatingID) inserts exactly one Vote row
with that RatingID; in general, a validated message with site digit `s`
transforms to `exhibition_id = "EXH_0" ++ s`. -/
theorem c9_end_to_end :
    (∀ (t : List (Int × Int)) (rid : Int),
      tuple_switch_one pyEqValRating (.int 4) t = some rid →
      validate msgE2E = none ∧
      transform_kafka_data msgE2E = .ok tdE2E ∧
      move_to_db tdE2E t dbAlwaysOk =
        (⟨1, [.vote "EXH_02" "01/01/24 10:00:00" rid]⟩, none)) ∧
    (∀ (m : MsgDict) (s : String) (td : TransformedData),
      validate m = none → m.site = some (.str s) →
      transform_kafka_data m = .ok td → td.site = "EXH_0" ++ s) := by
  constructor
  · intro t rid hlook
    refine ⟨by decide, by rfl, ?_⟩
    have hval4 : pyEq (JVal.int 4) (JVal.int (-1)) = false := by decide
    simp [move_to_db, tdE2E, hlook, dbAlwaysOk, hval4]
  · intro m s td hvalid hsite htr
    obtain ⟨hmiss, hsitebad, _, _⟩ := (validate_none_iff m).mp hvalid
    have hlen := siteBad_false_len m s hsitebad hsite
    have hrj : rjust1 s = s := by
      rw [rjust1, if_neg]
      omega
    cases hat : m.at_ with
    | none => simp [transform_kafka_data, hat] at htr
    | some av =>
      cases av with
      | int i => simp [transform_kafka_data, hat] at htr
      | str s0 =>
        cases hdt : strptimeIsoTz s0 with
        | none => simp [transform_kafka_data, hat, hdt] at htr
        | some dt =>
          cases hv : m.val with
          | none => simp [transform_kafka_data, hat, hdt, hsite, hv] at htr
          | some v =>
            simp only [transform_kafka_data, hat, hdt, hsite, hv,
              Except.ok.injEq] at htr
            rw [← htr, hrj]

/-- C9 witness: with the concrete Rating table `[(7, 2), (12, 4)]`,
value 4 resolves to RatingID 12 and exactly one Vote row is written;
the site digit of the scenario maps to `EXH_02`. -/
theorem c9_end_to_end_witness :
    tuple_switch_one pyEqValRating (.int 4) [(7, 2), (12, 4)] = some 12 ∧
    (validate msgE2E = none ∧
      transform_kafka_data msgE2E = .ok tdE2E ∧
      move_to_db tdE2E [(7, 2), (12, 4)] dbAlwaysOk =
        (⟨1, [.vote "EXH_02" "01/01/24 10:00:00" 12]⟩, none)) ∧
    tdE2E.site = "EXH_0" ++ "2" :=
  ⟨by decide, c9_end_to_end.1 [(7, 2), (12, 4)] 12 (by decide),
    c9_end_to_end.2 msgE2E "2" tdE2E (by decide) (by decide) (by rfl)⟩

/-- C8 witness: the per-record query count at the concrete vote
record. -/
theorem c8_rating_query_per_vote_witness :
    (move_to_db tdE2E [(12, 4)] dbAlwaysOk).1.ratingQueries =
      if pyEq tdE2E.val (.int (-1)) then 0 else 1 :=
  c8_rating_query_per_vote tdE2E [(12, 4)] dbAlwaysOk
